import Mathlib

/-!
Verification of the curl-turbulence instanced particle demo (`src/main.js`).

The per-frame simulation core is embedded shallowly over the real numbers:

* `Vec3` models `THREE.Vector3` restricted to the operations the demo uses
  (`multiplyScalar`, `addScaledVector`, `length`, `normalize`, `setLength`).
  `normalize` follows the three.js implementation
  `divideScalar(this.length() || 1)`: a zero-length vector is divided by `1`,
  so the zero vector normalizes to itself.
* The simplex-noise generator is an external black box; it is modelled as an
  arbitrary function `Noise : ℝ → ℝ → ℝ → ℝ`, so every theorem below holds for
  any noise field.
* `curlRaw`/`curlNoise` embed the `curlNoise` function (finite differences of
  the scaled noise, recombined as `(dy - dz, dz - dx, dx - dy)`, normalized).
* `step` embeds the per-particle body of the `animate` loop: forward-Euler
  advance by the curl velocity, then the soft boundary push, then the hard
  clamp `setLength (RADIUS - 0.001)`.
* `initParticlesRun` embeds one `initParticles()` call, driven by an explicit
  stream of `Math.random()` values and a fuel bound on the number of redraws
  of the rejection sampler (the JS `do … while` has no bound; the outer
  `none` models a run that exceeds the fuel). The imported three.js `Color`
  class has no `clampScalar` method (it exists only on the vector classes),
  so the call `color.clampScalar(0, 1)` on line 121 throws a `TypeError`;
  `particleColor` therefore returns `Option Color` and is always `none`, and
  a run is an `Except`: `Except.error ps` models the `TypeError` escaping
  with `positions = ps` at the moment of the throw, `Except.ok ps` a normal
  completion. For `count = 0` the loop body never runs, so no `setColorAt`
  call ever creates `instancedMesh.instanceColor` (it is created lazily by
  `setColorAt`), and line 125 `instancedMesh.instanceColor.needsUpdate`
  throws on the null object.
-/

namespace CurlDemo

/-- Model of `THREE.Vector3`: an ordered triple of reals. -/
@[ext]
structure Vec3 where
  x : ℝ
  y : ℝ
  z : ℝ

namespace Vec3

/-- The zero vector. -/
def zero : Vec3 := ⟨0, 0, 0⟩

/-- `THREE.Vector3.multiplyScalar`. -/
def multiplyScalar (v : Vec3) (s : ℝ) : Vec3 :=
  ⟨v.x * s, v.y * s, v.z * s⟩

/-- `THREE.Vector3.addScaledVector`: `p + v * s` componentwise. -/
def addScaledVector (p v : Vec3) (s : ℝ) : Vec3 :=
  ⟨p.x + v.x * s, p.y + v.y * s, p.z + v.z * s⟩

/-- `THREE.Vector3.length`: Euclidean norm. -/
noncomputable def length (v : Vec3) : ℝ :=
  Real.sqrt (v.x ^ 2 + v.y ^ 2 + v.z ^ 2)

/-- `THREE.Vector3.divideScalar`: multiplies by `1 / s`. -/
noncomputable def divideScalar (v : Vec3) (s : ℝ) : Vec3 :=
  v.multiplyScalar (1 / s)

/-- `THREE.Vector3.normalize`, which is `divideScalar(this.length() || 1)`:
the JS `|| 1` guard replaces a zero length by `1`. -/
noncomputable def normalize (v : Vec3) : Vec3 :=
  v.divideScalar (if v.length = 0 then 1 else v.length)

/-- `THREE.Vector3.setLength`, which is `normalize().multiplyScalar(l)`. -/
noncomputable def setLength (v : Vec3) (l : ℝ) : Vec3 :=
  v.normalize.multiplyScalar l

theorem length_nonneg (v : Vec3) : 0 ≤ v.length :=
  Real.sqrt_nonneg _

theorem length_multiplyScalar (v : Vec3) (s : ℝ) :
    (v.multiplyScalar s).length = |s| * v.length := by
  unfold length multiplyScalar
  simp only
  rw [show (v.x * s) ^ 2 + (v.y * s) ^ 2 + (v.z * s) ^ 2
        = s ^ 2 * (v.x ^ 2 + v.y ^ 2 + v.z ^ 2) by ring]
  rw [Real.sqrt_mul (sq_nonneg s), Real.sqrt_sq_eq_abs]

theorem length_eq_zero_iff (v : Vec3) : v.length = 0 ↔ v = zero := by
  unfold length zero
  constructor
  · intro h
    have hle : v.x ^ 2 + v.y ^ 2 + v.z ^ 2 ≤ 0 := Real.sqrt_eq_zero'.mp h
    have hx : v.x = 0 := by nlinarith [sq_nonneg v.x, sq_nonneg v.y, sq_nonneg v.z]
    have hy : v.y = 0 := by nlinarith [sq_nonneg v.x, sq_nonneg v.y, sq_nonneg v.z]
    have hz : v.z = 0 := by nlinarith [sq_nonneg v.x, sq_nonneg v.y, sq_nonneg v.z]
    ext <;> simp [hx, hy, hz]
  · intro h
    rw [h]
    simp

theorem length_normalize (v : Vec3) (h : v.length ≠ 0) : v.normalize.length = 1 := by
  unfold normalize divideScalar
  rw [if_neg h, length_multiplyScalar]
  have hpos : 0 < v.length := lt_of_le_of_ne (length_nonneg v) (Ne.symm h)
  rw [abs_of_pos (by positivity)]
  field_simp

theorem length_setLength (v : Vec3) (l : ℝ) (h : v.length ≠ 0) (hl : 0 ≤ l) :
    (v.setLength l).length = l := by
  unfold setLength
  rw [length_multiplyScalar, length_normalize v h, mul_one, abs_of_nonneg hl]

theorem addScaledVector_zero (p v : Vec3) : p.addScaledVector v 0 = p := by
  unfold addScaledVector
  ext <;> simp

end Vec3

/-- The abstract noise generator (`simplex.noise3D`): any real-valued function
of three real coordinates. -/
abbrev Noise := ℝ → ℝ → ℝ → ℝ

/-- `const RADIUS = 50`. -/
def RADIUS : ℝ := 50

/-- `const epsilon = 0.0001`, the finite-difference step for curl. -/
def epsilon : ℝ := 0.0001

/-- The simulation parameters read by the per-frame step
(`params.windScale`, `params.speed`, `params.boundary`). -/
structure Params where
  windScale : ℝ
  speed : ℝ
  boundary : ℝ

/-- The defaults of the `params` object: `windScale = 0.04`, `speed = 4.0`,
`boundary = 4.0`. -/
def defaultParams : Params := ⟨0.04, 4.0, 4.0⟩

/-- The raw (pre-normalization) curl vector of `curlNoise`: central
differences `dx, dy, dz` of the scaled noise, recombined as
`(dy - dz, dz - dx, dx - dy)`. -/
noncomputable def curlRaw (noise : Noise) (windScale : ℝ) (x y z : ℝ) : Vec3 :=
  let n := fun xi yi zi => noise (xi * windScale) (yi * windScale) (zi * windScale)
  let dx := (n (x + epsilon) y z - n (x - epsilon) y z) / (2 * epsilon)
  let dy := (n x (y + epsilon) z - n x (y - epsilon) z) / (2 * epsilon)
  let dz := (n x y (z + epsilon) - n x y (z - epsilon)) / (2 * epsilon)
  ⟨dy - dz, dz - dx, dx - dy⟩

/-- `curlNoise(x, y, z)`: the raw curl vector, normalized
(`new THREE.Vector3(dy - dz, dz - dx, dx - dy).normalize()`). -/
noncomputable def curlNoise (noise : Noise) (windScale : ℝ) (x y z : ℝ) : Vec3 :=
  (curlRaw noise windScale x y z).normalize

/-- The per-particle body of the `animate` loop: noise-modulated curl
velocity, forward-Euler advance over `dt`, soft boundary push when the new
position leaves `RADIUS`, and the hard clamp `setLength(RADIUS - 0.001)` when
the push was not enough. -/
noncomputable def step (noise : Noise) (params : Params) (p : Vec3) (dt : ℝ) : Vec3 :=
  let noiseAmp :=
    noise (p.x * params.windScale) (p.y * params.windScale) (p.z * params.windScale) * 0.5 + 0.5
  let v := (curlNoise noise params.windScale p.x p.y p.z).multiplyScalar (params.speed * noiseAmp)
  let p1 := p.addScaledVector v dt
  let len := p1.length
  if len > RADIUS then
    let push := (len - RADIUS) * params.boundary
    let p2 := p1.addScaledVector p1.normalize (-push * dt)
    if p2.length > RADIUS then p2.setLength (RADIUS - 0.001) else p2
  else
    p1

/-- Containment after one step, for any noise field, parameters, position and
elapsed time: shared by the boundary claims. -/
theorem step_length_le_radius (noise : Noise) (params : Params) (p : Vec3) (dt : ℝ) :
    (step noise params p dt).length ≤ RADIUS := by
  unfold step
  simp only
  split_ifs with h1 h2
  · rw [Vec3.length_setLength]
    · norm_num [RADIUS]
    · exact ne_of_gt (lt_trans (by norm_num [RADIUS]) h2)
    · norm_num [RADIUS]
  · exact le_of_not_lt h2
  · exact le_of_not_lt h1

/-- Model of `THREE.Color`: an RGB triple of reals. `new THREE.Color(0xffffff)`
is `(1, 1, 1)` and `new THREE.Color(0xff0000)` is `(1, 0, 0)` (the sRGB →
linear transfer function fixes 0 and 1, so colour management does not change
these channel values). -/
@[ext]
structure Color where
  r : ℝ
  g : ℝ
  b : ℝ

namespace Color

/-- `THREE.Color.lerp`: `this.r += (color.r - this.r) * alpha` componentwise. -/
def lerp (c target : Color) (alpha : ℝ) : Color :=
  ⟨c.r + (target.r - c.r) * alpha,
   c.g + (target.g - c.g) * alpha,
   c.b + (target.b - c.b) * alpha⟩

/-- `color.clampScalar(0, 1)` as called on line 121: the imported three.js
`Color` class has no `clampScalar` method (its full method list ends at
`lerp, lerpColors, lerpHSL, …, toJSON`; `clampScalar` exists only on
`Vector2/3/4`), so the property lookup yields `undefined` and the call
throws a `TypeError`. The fallible call is modelled as an `Option` that
never succeeds. -/
def clampScalar (_c : Color) (_minVal _maxVal : ℝ) : Option Color :=
  none

end Color

/-- `const COLOR_CENTER = new THREE.Color(0xffffff)`. -/
def COLOR_CENTER : Color := ⟨1, 1, 1⟩

/-- `const COLOR_EDGE = new THREE.Color(0xff0000)`. -/
def COLOR_EDGE : Color := ⟨1, 0, 0⟩

/-- The per-particle colour derivation of `initParticles` (lines 114-121):
`t = p.length() / RADIUS`, lerp from `COLOR_CENTER` to `COLOR_EDGE` by `t`,
per-channel jitter `(Math.random() - 0.5) * 0.1` with the three random draws
passed in as `j1 j2 j3`, and finally the `clampScalar(0, 1)` call — which
throws, so the derivation never produces a colour. -/
noncomputable def particleColor (p : Vec3) (j1 j2 j3 : ℝ) : Option Color :=
  let t := p.length / RADIUS
  let c := COLOR_CENTER.lerp COLOR_EDGE t
  (Color.mk (c.r + (j1 - 0.5) * 0.1)
            (c.g + (j2 - 0.5) * 0.1)
            (c.b + (j3 - 0.5) * 0.1)).clampScalar 0 1

/-- One candidate draw of the rejection sampler in `initParticles`:
`(Math.random() * 2 - 1) * RADIUS` per component, reading the three
`Math.random()` results from the stream `rng` at indices `k, k+1, k+2`. -/
def drawPoint (rng : ℕ → ℝ) (k : ℕ) : Vec3 :=
  ⟨(rng k * 2 - 1) * RADIUS,
   (rng (k + 1) * 2 - 1) * RADIUS,
   (rng (k + 2) * 2 - 1) * RADIUS⟩

/-- The `do … while (p.length() > RADIUS)` rejection loop of `initParticles`:
draw a candidate, redraw while it lies outside the sphere. The JS loop has no
iteration bound; `fuel` bounds the number of draws in the model and `none`
models a run that exceeds it. On success, returns the accepted point and the
next unread index of the random stream. -/
noncomputable def sampleInSphere (rng : ℕ → ℝ) : ℕ → ℕ → Option (Vec3 × ℕ)
  | _, 0 => none
  | k, fuel + 1 =>
    let p := drawPoint rng k
    if p.length > RADIUS then sampleInSphere rng (k + 3) fuel else some (p, k + 3)

/-- The body loop of `initParticles`
(`for (let i = 0; i < params.count; i++) { … }`): each iteration samples a
position by rejection, pushes it onto `positions`, then runs the colour
derivation of lines 114-121 (consuming three further `Math.random()` draws
for the jitter). When the colour derivation throws — which it always does,
at the `clampScalar` call — the `TypeError` escapes with the positions
pushed so far (`Except.error`). `acc` is the `positions` array, `k` the next
unread index of the random stream; the outer `none` is the model's fuel
bound on the rejection sampler. -/
noncomputable def initLoop (rng : ℕ → ℝ) (fuel : ℕ) :
    ℕ → ℕ → List Vec3 → Option (Except (List Vec3) (List Vec3))
  | _, 0, acc => some (Except.ok acc)
  | k, n + 1, acc =>
    match sampleInSphere rng k fuel with
    | none => none
    | some (p, k2) =>
      match particleColor p (rng k2) (rng (k2 + 1)) (rng (k2 + 2)) with
      | none => some (Except.error (acc ++ [p]))
      | some _ => initLoop rng fuel (k2 + 3) n (acc ++ [p])

/-- One `initParticles()` call with `params.count = count`: run the loop,
then line 125 `instancedMesh.instanceColor.needsUpdate = true`.
`instanceColor` is created lazily by `setColorAt`, so after a normal loop
completion it is still null exactly when the body ran zero times
(`count = 0`), and line 125 then throws on the null object
(`Except.error` with the — empty — positions array). -/
noncomputable def initParticlesRun (rng : ℕ → ℝ) (fuel count : ℕ) :
    Option (Except (List Vec3) (List Vec3)) :=
  match initLoop rng fuel 0 count [] with
  | none => none
  | some (Except.error ps) => some (Except.error ps)
  | some (Except.ok ps) =>
    if count = 0 then some (Except.error ps) else some (Except.ok ps)

theorem Vec3.length_zero : Vec3.zero.length = 0 := by
  unfold Vec3.length Vec3.zero
  simp

theorem sampleInSphere_length_le (rng : ℕ → ℝ) (fuel : ℕ) :
    ∀ k p k2, sampleInSphere rng k fuel = some (p, k2) → p.length ≤ RADIUS := by
  induction fuel with
  | zero =>
    intro k p k2 h
    simp [sampleInSphere] at h
  | succ fuel ih =>
    intro k p k2 h
    rw [sampleInSphere] at h
    split_ifs at h with hgt
    · exact ih (k + 3) p k2 h
    · simp only [Option.some.injEq, Prod.mk.injEq] at h
      exact h.1 ▸ le_of_not_lt hgt

theorem particleColor_none (p : Vec3) (j1 j2 j3 : ℝ) :
    particleColor p j1 j2 j3 = none :=
  rfl

theorem initParticlesRun_succ (rng : ℕ → ℝ) (fuel n : ℕ) (p : Vec3) (k2 : ℕ)
    (h : sampleInSphere rng 0 fuel = some (p, k2)) :
    initParticlesRun rng fuel (n + 1) = some (Except.error [p]) := by
  have hloop : initLoop rng fuel 0 (n + 1) [] = some (Except.error [p]) := by
    rw [initLoop, h]
    dsimp only
    rw [particleColor_none]
    simp
  unfold initParticlesRun
  rw [hloop]

theorem initParticlesRun_zero (rng : ℕ → ℝ) (fuel : ℕ) :
    initParticlesRun rng fuel 0 = some (Except.error []) := by
  unfold initParticlesRun
  rw [initLoop]
  simp

/-- A concrete random stream whose every value is `1/2`, so every draw is the
origin and is accepted at once. -/
noncomputable def rngHalf : ℕ → ℝ := fun _ => 1 / 2

theorem drawPoint_rngHalf (k : ℕ) : drawPoint rngHalf k = Vec3.zero := by
  unfold drawPoint rngHalf Vec3.zero
  ext <;> norm_num

theorem sampleInSphere_rngHalf (k fuel : ℕ) :
    sampleInSphere rngHalf k (fuel + 1) = some (Vec3.zero, k + 3) := by
  rw [sampleInSphere]
  simp only [drawPoint_rngHalf, Vec3.length_zero]
  rw [if_neg (by norm_num [RADIUS])]

/-- Claim C1 (containment invariant): for every noise field, parameter
setting, particle position and elapsed time, after the per-frame integration
step (forward-Euler advance, then the boundary soft push and, if needed, the
hard clamp) completes for that particle, the position's distance from the
origin is at most `R = 50` — the model proves the bound with no epsilon slack
needed. -/
theorem containment_invariant (noise : Noise) (params : Params) (p : Vec3) (dt : ℝ) :
    (step noise params p dt).length ≤ RADIUS :=
  step_length_le_radius noise params p dt

/-- Claim C2 (curl normalization): whenever the raw finite-difference vector
`(dy - dz, dz - dx, dx - dy)` is non-degenerate (nonzero), the vector
returned by `curlNoise` has length exactly `1`. -/
theorem curl_unit_length (noise : Noise) (windScale x y z : ℝ)
    (h : curlRaw noise windScale x y z ≠ Vec3.zero) :
    (curlNoise noise windScale x y z).length = 1 := by
  unfold curlNoise
  exact Vec3.length_normalize _ (fun h0 => h ((Vec3.length_eq_zero_iff _).mp h0))

/-- Witness for C2: with the noise field `(a, b, c) ↦ a` and `windScale = 1`,
the raw curl at the origin is `(0, -1, 1) ≠ 0` and the normalized curl has
length `1`. -/
theorem curl_unit_length_witness :
    curlRaw (fun a _ _ => a) 1 0 0 0 ≠ Vec3.zero ∧
      (curlNoise (fun a _ _ => a) 1 0 0 0).length = 1 := by
  have hval : curlRaw (fun a _ _ => a) 1 0 0 0 = ⟨0, -1, 1⟩ := by
    unfold curlRaw epsilon
    ext <;> norm_num
  have hne : curlRaw (fun a _ _ => a) 1 0 0 0 ≠ Vec3.zero := by
    rw [hval]
    unfold Vec3.zero
    intro hcontra
    have : (-1 : ℝ) = 0 := congrArg Vec3.y hcontra
    norm_num at this
  exact ⟨hne, curl_unit_length _ _ _ _ _ hne⟩

/-- Claim C3 (zero-dt no-op): for every position `p` with `|p| ≤ R` and every
noise field and parameter setting, one integration step with `dt = 0` returns
`p` unchanged — neither the velocity term nor any boundary correction moves
the particle when no time has elapsed. -/
theorem step_zero_dt (noise : Noise) (params : Params) (p : Vec3)
    (h : p.length ≤ RADIUS) : step noise params p 0 = p := by
  unfold step
  simp only [Vec3.addScaledVector_zero]
  rw [if_neg (not_lt.mpr h)]

/-- Witness for C3: the position `(3, 4, 0)` has length `5 ≤ 50` and a
zero-dt step leaves it unchanged. -/
theorem step_zero_dt_witness :
    (Vec3.mk 3 4 0).length ≤ RADIUS ∧
      step (fun _ _ _ => 0) defaultParams ⟨3, 4, 0⟩ 0 = ⟨3, 4, 0⟩ := by
  have h : (Vec3.mk 3 4 0).length ≤ RADIUS := by
    unfold Vec3.length RADIUS
    simp only
    rw [show (3 : ℝ) ^ 2 + 4 ^ 2 + 0 ^ 2 = 5 ^ 2 by norm_num,
        Real.sqrt_sq (by norm_num : (0 : ℝ) ≤ 5)]
    norm_num
  exact ⟨h, step_zero_dt _ defaultParams _ h⟩

/-- Claim C4 (boundary correction direction, concrete case): with `R = 50`,
position `(100, 0, 0)`, the default parameters (`speed = 4.0`,
`boundaryStrength = 4.0`) and `dt = 0.016`, after one integration step the
distance from the origin is strictly below `100` and at most `50 + 1e-6` —
the restoring correction moves the particle inward, never outward (for any
noise field: the hard clamp bounds the result by `R` unconditionally). -/
theorem boundary_correction_concrete (noise : Noise) :
    (step noise defaultParams ⟨100, 0, 0⟩ 0.016).length < 100 ∧
      (step noise defaultParams ⟨100, 0, 0⟩ 0.016).length ≤ RADIUS + 1e-6 := by
  have h := step_length_le_radius noise defaultParams ⟨100, 0, 0⟩ 0.016
  refine ⟨lt_of_le_of_lt h ?_, le_trans h ?_⟩ <;> norm_num [RADIUS]

/-- Claim C7 (degenerate-gradient safety): when the raw finite-difference
vector has exactly zero magnitude, `curlNoise` returns the zero vector (the
three.js `normalize` guard `length() || 1` divides by `1`), so no undefined
value reaches the position update. -/
theorem curl_degenerate_fallback (noise : Noise) (windScale x y z : ℝ)
    (h : (curlRaw noise windScale x y z).length = 0) :
    curlNoise noise windScale x y z = Vec3.zero := by
  unfold curlNoise Vec3.normalize Vec3.divideScalar
  rw [if_pos h, (Vec3.length_eq_zero_iff _).mp h]
  unfold Vec3.zero Vec3.multiplyScalar
  ext <;> simp

/-- Witness for C7: the constant-zero noise field yields a raw curl of zero
magnitude at the origin, and `curlNoise` returns the zero vector there. -/
theorem curl_degenerate_fallback_witness :
    (curlRaw (fun _ _ _ => 0) 1 0 0 0).length = 0 ∧
      curlNoise (fun _ _ _ => 0) 1 0 0 0 = Vec3.zero := by
  have hval : curlRaw (fun _ _ _ => 0) 1 0 0 0 = Vec3.zero := by
    unfold curlRaw Vec3.zero
    ext <;> norm_num
  have h : (curlRaw (fun _ _ _ => 0) 1 0 0 0).length = 0 := by
    rw [hval, Vec3.length_zero]
  exact ⟨h, curl_degenerate_fallback _ _ _ _ _ h⟩

/-- Claim C8 (antisymmetric recombination): at every input point the three
components of the raw pre-normalization curl vector sum exactly to zero,
`(dy - dz) + (dz - dx) + (dx - dy) = 0`, i.e. the raw field is everywhere
orthogonal to `(1, 1, 1)`. -/
theorem curlRaw_components_sum_zero (noise : Noise) (windScale x y z : ℝ) :
    (curlRaw noise windScale x y z).x + (curlRaw noise windScale x y z).y +
        (curlRaw noise windScale x y z).z = 0 := by
  unfold curlRaw
  dsimp only
  ring

/-- Claim C9 (code bug): the claimed clamping never happens — for every
particle position and every triple of per-channel random draws, the colour
derivation of `initParticles` produces no colour at all: `color.clampScalar(0, 1)`
on line 121 calls a method the imported three.js `Color` class does not
have, the call throws a `TypeError`, and no colour is ever handed to the
presentation layer. -/
theorem particleColor_throws (p : Vec3) (j1 j2 j3 : ℝ) :
    particleColor p j1 j2 j3 = none :=
  particleColor_none p j1 j2 j3

/-- Claim C10 (zero-dt clamp outside the domain): for every position `p` with
`|p| > R`, a step with `dt = 0` does not return `p` unchanged — the velocity
and soft-push terms vanish with `dt`, but the hard-clamp branch still fires
and returns `p` rescaled to length `R - 0.001`. -/
theorem step_zero_dt_outside (noise : Noise) (params : Params) (p : Vec3)
    (h : p.length > RADIUS) :
    step noise params p 0 = p.normalize.multiplyScalar (RADIUS - 0.001) ∧
      step noise params p 0 ≠ p := by
  have hstep : step noise params p 0 = p.normalize.multiplyScalar (RADIUS - 0.001) := by
    unfold step
    simp only [mul_zero, Vec3.addScaledVector_zero]
    rw [if_pos h, if_pos h]
    unfold Vec3.setLength
    rfl
  have hne : p.length ≠ 0 := ne_of_gt (lt_trans (by norm_num [RADIUS]) h)
  have hlen : (p.normalize.multiplyScalar (RADIUS - 0.001)).length = RADIUS - 0.001 := by
    rw [Vec3.length_multiplyScalar, Vec3.length_normalize p hne, mul_one,
        abs_of_nonneg (by norm_num [RADIUS])]
  refine ⟨hstep, fun hcontra => ?_⟩
  have hp : p.length = RADIUS - 0.001 :=
    (congrArg Vec3.length (hcontra.symm.trans hstep)).trans hlen
  rw [hp] at h
  norm_num [RADIUS] at h

/-- Witness for C10: the position `(100, 0, 0)` has length `100 > 50`; a
zero-dt step rescales it to length `49.999` instead of returning it. -/
theorem step_zero_dt_outside_witness :
    (Vec3.mk 100 0 0).length > RADIUS ∧
      (step (fun _ _ _ => 0) defaultParams ⟨100, 0, 0⟩ 0 =
          (Vec3.mk 100 0 0).normalize.multiplyScalar (RADIUS - 0.001) ∧
        step (fun _ _ _ => 0) defaultParams ⟨100, 0, 0⟩ 0 ≠ ⟨100, 0, 0⟩) := by
  have h : (Vec3.mk 100 0 0).length > RADIUS := by
    unfold Vec3.length RADIUS
    simp only
    rw [show (100 : ℝ) ^ 2 + 0 ^ 2 + 0 ^ 2 = 100 ^ 2 by norm_num,
        Real.sqrt_sq (by norm_num : (0 : ℝ) ≤ 100)]
    norm_num
  exact ⟨h, step_zero_dt_outside _ defaultParams _ h⟩

/-- Claim C6 (code bug): reset does not replace the collection with `count`
positions — at the claim's concrete `count = 5000` (with the constant-`1/2`
random stream, whose first draw is the origin and is accepted at once), the
first loop iteration pushes its sampled position and then the colour
derivation throws at line 121, so the run aborts with a one-element partial
collection instead of `5000` positions. The one pushed position does satisfy
the claimed `|position| ≤ R`, since the rejection loop accepted it. -/
theorem reset_throws_partial :
    initParticlesRun rngHalf 1 5000 = some (Except.error [Vec3.zero]) ∧
      Vec3.zero.length ≤ RADIUS ∧ ([Vec3.zero] : List Vec3).length ≠ 5000 := by
  refine ⟨initParticlesRun_succ rngHalf 1 4999 Vec3.zero 3 (sampleInSphere_rngHalf 0 0), ?_, ?_⟩
  · rw [Vec3.length_zero]
    norm_num [RADIUS]
  · simp

/-- Claim C5 (code bug): at an out-of-range count reset neither clamps the
count into range nor fails fast at validation time. At `count = 30000` it
pushes one sampled position and then a `TypeError` escapes from line 121,
leaving a one-element partial collection; at `count = 0` the loop is skipped
and line 125 throws on the null `instanceColor`, after `positions` was
already replaced by the empty array. -/
theorem reset_out_of_range_throws :
    initParticlesRun rngHalf 1 30000 = some (Except.error [Vec3.zero]) ∧
      initParticlesRun rngHalf 1 0 = some (Except.error []) :=
  ⟨initParticlesRun_succ rngHalf 1 29999 Vec3.zero 3 (sampleInSphere_rngHalf 0 0),
   initParticlesRun_zero rngHalf 1⟩

end CurlDemo
